import Mathlib

/-
Verification of the PlentyMarket REST client (src/plentymarket.py).

The client is a single class holding mutable connection state (base URL,
header dictionary, tokens, last response status code and body) and exposing
`login`, `refreshLogin` and four HTTP verbs wrapped by the decorator
`_safeQuery`.  We embed the class state as a structure, each method as a
pure state transformer, and the HTTP transport as an explicit oracle: a
`Except String Resp` value standing for the outcome of one HTTP exchange
(`Except.ok` carries the response, `Except.error` stands for a raised
exception such as a network failure).

Notable behaviours of the source that the embedding reproduces faithfully:
  * line 142: on a 401 response the wrapper evaluates `self.safeQuery`,
    an attribute that does not exist, so an AttributeError is raised and
    caught by the surrounding `except` — no refresh and no retry happen
    inside that call;
  * line 148: on a 404 the wrapper raises a plain string, which in Python
    is a TypeError, again caught by the surrounding `except`;
  * line 183: `post` evaluates the undefined name `requets`, raising a
    NameError before any request is issued;
  * lines 119-121: `refreshLogin` checks for the substring "refreshToken"
    in the response text and then indexes the text (a string) with a string
    key, which raises a TypeError before any assignment happens, so
    `refreshLogin` never mutates the client state on any path.
-/

namespace PlentyMarket

/-- An HTTP response as the `requests` library presents it: a numeric
status code and an opaque body.  The body models both `response.content`
(bytes) and `response.text` (decoded string); the client only ever treats
it as an opaque value or scans it for a substring, so one field suffices. -/
structure Resp where
  status_code : Nat
  content : String
  deriving DecidableEq, Repr

/-- The HTTP verbs exposed by the client. -/
inductive Verb
  | get
  | post
  | put
  | delete
  deriving DecidableEq, Repr

/-- A request as handed to the `requests` library: the verb, the full URL,
and the headers argument (`none` when the call site passes no headers). -/
structure HttpRequest where
  verb : Verb
  url : String
  headers : Option (List (String × String))
  deriving DecidableEq, Repr

/-- The instance state of `PlentyMarketRestClient` (lines 14-20 of the
source).  The header dictionary is an association list with unique keys in
insertion order, matching a Python dict. -/
structure ClientState where
  access_token : String
  refresh_token : String
  url : String
  headers : List (String × String)
  last_request_status_code : Nat
  last_request_content : Option String
  token_expiration : Nat
  deriving DecidableEq, Repr

/-- Model of `__init__` (lines 8-20): empty tokens, empty headers, last status 200,
no last content. -/
def initState (api_url : String) : ClientState :=
  { access_token := ""
    refresh_token := ""
    url := api_url
    headers := []
    last_request_status_code := 200
    last_request_content := none
    token_expiration := 0 }

/-- Setting one key of a Python dict: overwrite in place when the key is
present, append otherwise. -/
def dictSet (m : List (String × String)) (k v : String) : List (String × String) :=
  if m.any (fun p => p.1 == k) then
    m.map (fun p => if p.1 == k then (k, v) else p)
  else
    m ++ [(k, v)]

/-- Model of `dict.update`: fold `dictSet` over the entries of the update dict. -/
def dictUpdate (m entries : List (String × String)) : List (String × String) :=
  entries.foldl (fun acc p => dictSet acc p.1 p.2) m

/-- Dict lookup (`k in d` is `(dictGet d k).isSome`). -/
def dictGet (m : List (String × String)) (k : String) : Option String :=
  (m.find? (fun p => p.1 == k)).map Prod.snd

/-- Model of `setHeader` (lines 23-30): update the header dict, overwriting existing
keys. -/
def setHeader (st : ClientState) (header : List (String × String)) : ClientState :=
  { st with headers := dictUpdate st.headers header }

/-- Helper for substring containment: does `t` occur in `s` at some
position? -/
def hasSubstrAux (t : List Char) : List Char → Bool
  | [] => t.isPrefixOf []
  | c :: rest => t.isPrefixOf (c :: rest) || hasSubstrAux t rest

/-- Model of Python substring containment `t in s` for strings. -/
def containsSubstr (s t : String) : Bool :=
  hasSubstrAux t.data s.data

/-- Model of `login` (lines 73-104) in the case where the response body
parses as a JSON object, given as the association list of its string
fields.  The status code is recorded first (line 92); if both
`accessToken` and `refreshToken` fields are present, the refresh token is
stored and then `Authorization: Bearer <accessToken>` is installed via
`setHeader`; otherwise only an error is printed.  The response is returned
either way. -/
def login (st : ClientState) (resp : Resp) (jsonBody : List (String × String)) :
    ClientState × Resp :=
  let st1 := { st with last_request_status_code := resp.status_code }
  match dictGet jsonBody "accessToken", dictGet jsonBody "refreshToken" with
  | some access_token, some rt =>
      let st2 := { st1 with refresh_token := rt }
      (setHeader st2 [("Authorization", "Bearer " ++ access_token)], resp)
  | some _, none => (st1, resp)
  | none, _ => (st1, resp)

/-- Model of `refreshLogin` (lines 107-122).  `tr` is the transport outcome of the
refresh POST.  On a received response the code binds `data = response.text`
and tests `"refreshToken" in data`; when the substring occurs it evaluates
`data["refreshToken"]`, indexing a string with a string key, which raises a
TypeError before any assignment.  Hence the function either raises or
returns the response with the state unchanged. -/
def refreshLogin (st : ClientState) (tr : Except String Resp) :
    Except String (ClientState × Resp) :=
  match tr with
  | .error e => .error e
  | .ok resp =>
      if containsSubstr resp.content "refreshToken" then
        .error "TypeError: string indices must be integers"
      else
        .ok (st, resp)

/-- Hex digit for percent-encoding (uppercase, as Python produces). -/
def hexDigit (n : Nat) : Char :=
  if n < 10 then Char.ofNat (48 + n) else Char.ofNat (55 + n)

/-- Percent encoding of one byte as %XX. -/
def percentByte (b : Nat) : String :=
  String.mk ['%', hexDigit (b / 16 % 16), hexDigit (b % 16)]

/-- UTF-8 bytes of a character, for percent-encoding. -/
def utf8Bytes (c : Char) : List Nat :=
  let n := c.toNat
  if n < 128 then [n]
  else if n < 2048 then [192 + n / 64, 128 + n % 64]
  else if n < 65536 then [224 + n / 4096, 128 + n / 64 % 64, 128 + n % 64]
  else [240 + n / 262144, 128 + n / 4096 % 64, 128 + n / 64 % 64, 128 + n % 64]

/-- Model of `urllib.parse.quote_plus` on one character: ASCII letters, digits and
`_.-~` pass through, a space becomes `+`, everything else is
percent-encoded byte by byte. -/
def quotePlusChar (c : Char) : String :=
  if c = ' ' then "+"
  else if ('a' ≤ c ∧ c ≤ 'z') ∨ ('A' ≤ c ∧ c ≤ 'Z') ∨ ('0' ≤ c ∧ c ≤ '9')
          ∨ c = '_' ∨ c = '.' ∨ c = '-' ∨ c = '~' then
    String.singleton c
  else
    String.join ((utf8Bytes c).map percentByte)

/-- Model of `urllib.parse.quote_plus` on a string. -/
def quotePlus (s : String) : String :=
  String.join (s.data.map quotePlusChar)

/-- Model of `urllib.parse.urlencode` on a dict of string keys and values, in
insertion order. -/
def urlencode (data : List (String × String)) : String :=
  String.intercalate "&" (data.map (fun p => quotePlus p.1 ++ "=" ++ quotePlus p.2))

/-- The inner body of each verb method: the `requests` call it issues, if
any.
  * `post` (line 183) evaluates the undefined name `requets`, so it raises
    a NameError before issuing any request;
  * `delete` (line 196) and `put` (line 231) pass no headers argument;
  * `get` (lines 211-215) url-encodes `data` and prepends `?` unless the
    endpoint minus its final character (Python `api_endpoint[:-1]`) equals
    `?`, then passes the stored headers. -/
def verbRequest (st : ClientState) (v : Verb) (endpoint : String)
    (data : List (String × String)) : Option HttpRequest :=
  match v with
  | .post => none
  | .delete => some { verb := .delete, url := st.url ++ endpoint, headers := none }
  | .put => some { verb := .put, url := st.url ++ endpoint, headers := none }
  | .get =>
      let query := urlencode data
      let query := if endpoint.dropRight 1 ≠ "?" then "?" ++ query else query
      some { verb := .get, url := st.url ++ endpoint ++ query, headers := some st.headers }

/-- The observable outcome of one wrapped verb call: the state after the
call, the value returned to the caller (`none` when the wrapper fell
through an `except` branch or skipped the body), how many times
`refreshLogin` and the wrapped verb were invoked, and the request actually
handed to the transport, if one was. -/
structure CallResult where
  state : ClientState
  response : Option Resp
  refreshCalls : Nat
  verbAttempts : Nat
  issuedRequest : Option HttpRequest
  deriving DecidableEq, Repr

/-- The `_safeQuery` wrapper (lines 124-169) applied to the verb `v` with
endpoint and data.  `refreshTr` is the transport outcome of the refresh
POST, consulted only on the 401 path; `tr` is the transport outcome of the
verb request itself, consulted only when a request is issued.

From last status 200 (lines 135-153): run the verb body; any exception is
caught and `None` returned.  On a response, record its status; on 401 the
code evaluates `self.safeQuery`, an attribute that does not exist, so an
AttributeError is raised and caught — no refresh, no retry; on 200 the
body is cached; on 404 the code raises a plain string, a TypeError, caught
as well; any other status returns the response.

From last status 401 (lines 155-167): call `refreshLogin`, then the verb
once; cache the body on 200, record the new status, return the response;
any exception along the way is caught and `None` returned.

From any other last status (no branch matches): do nothing, return `None`. -/
def safeQuery (st : ClientState) (refreshTr : Except String Resp) (v : Verb)
    (endpoint : String) (data : List (String × String)) (tr : Except String Resp) :
    CallResult :=
  if st.last_request_status_code = 200 then
    match verbRequest st v endpoint data, tr with
    | none, _ =>
        { state := st, response := none, refreshCalls := 0, verbAttempts := 1,
          issuedRequest := none }
    | some r, .error _ =>
        { state := st, response := none, refreshCalls := 0, verbAttempts := 1,
          issuedRequest := some r }
    | some r, .ok resp =>
        let st1 := { st with last_request_status_code := resp.status_code }
        if resp.status_code = 401 then
          { state := st1, response := none, refreshCalls := 0, verbAttempts := 1,
            issuedRequest := some r }
        else
          let st2 :=
            if resp.status_code = 200 then
              { st1 with last_request_content := some resp.content }
            else st1
          if resp.status_code = 404 then
            { state := st2, response := none, refreshCalls := 0, verbAttempts := 1,
              issuedRequest := some r }
          else
            { state := st2, response := some resp, refreshCalls := 0, verbAttempts := 1,
              issuedRequest := some r }
  else if st.last_request_status_code = 401 then
    match refreshLogin st refreshTr with
    | .error _ =>
        { state := st, response := none, refreshCalls := 1, verbAttempts := 0,
          issuedRequest := none }
    | .ok (st1, _) =>
        match verbRequest st1 v endpoint data, tr with
        | none, _ =>
            { state := st1, response := none, refreshCalls := 1, verbAttempts := 1,
              issuedRequest := none }
        | some r, .error _ =>
            { state := st1, response := none, refreshCalls := 1, verbAttempts := 1,
              issuedRequest := some r }
        | some r, .ok resp =>
            let st2 :=
              if resp.status_code = 200 then
                { st1 with last_request_content := some resp.content }
              else st1
            let st3 := { st2 with last_request_status_code := resp.status_code }
            { state := st3, response := some resp, refreshCalls := 1, verbAttempts := 1,
              issuedRequest := some r }
  else
    { state := st, response := none, refreshCalls := 0, verbAttempts := 0,
      issuedRequest := none }

end PlentyMarket

namespace PlentyMarket

theorem dictGet_dictSet_self (m : List (String × String)) (k v : String) :
    dictGet (dictSet m k v) k = some v := by
  induction m with
  | nil => simp [dictSet, dictGet]
  | cons a t ih =>
    by_cases ha : a.1 = k
    · simp [dictSet, dictGet, ha]
    · by_cases ht : t.any (fun p => p.1 == k)
      · simp only [dictSet, List.any_cons, beq_iff_eq, ha, decide_False, Bool.false_or, ht,
          if_true] at ih ⊢
        simp [dictGet, ha] at ih ⊢
        simpa [dictSet, ht, dictGet] using ih
      · simp only [dictSet, List.any_cons, beq_iff_eq, ha, decide_False, Bool.false_or, ht,
          if_false] at ih ⊢
        simp [dictGet, ha] at ih ⊢
        simpa [dictSet, ht, dictGet] using ih

theorem refreshLogin_ok_state (st : ClientState) (tr : Except String Resp)
    (st1 : ClientState) (r : Resp) (h : refreshLogin st tr = Except.ok (st1, r)) :
    st1 = st := by
  cases tr with
  | error e => simp [refreshLogin] at h
  | ok resp =>
    by_cases hc : containsSubstr resp.content "refreshToken"
    · simp [refreshLogin, hc] at h
    · simp [refreshLogin, hc] at h
      exact h.1.symm

theorem safeQuery_preserves_headers (st : ClientState) (rtr : Except String Resp)
    (v : Verb) (ep : String) (d : List (String × String)) (tr : Except String Resp) :
    (safeQuery st rtr v ep d tr).state.headers = st.headers := by
  unfold safeQuery
  by_cases h1 : st.last_request_status_code = 200
  · rw [if_pos h1]
    rcases hv : verbRequest st v ep d with _ | r
    · simp
    · cases tr with
      | error e => simp
      | ok resp =>
        simp only []
        split_ifs <;> simp
  · rw [if_neg h1]
    by_cases h2 : st.last_request_status_code = 401
    · rw [if_pos h2]
      rcases hr : refreshLogin st rtr with e | p
      · simp [hr]
      · obtain ⟨st1, r0⟩ := p
        have hst : st1 = st := refreshLogin_ok_state st rtr st1 r0 hr
        subst hst
        rcases hv : verbRequest st1 v ep d with _ | r
        · simp [hr, hv]
        · cases tr with
          | error e => simp [hr, hv]
          | ok resp =>
            simp only [hr, hv]
            split_ifs <;> simp
    · rw [if_neg h2]

end PlentyMarket

namespace PlentyMarket

/-- C10: whenever the stored last-request status code is neither 200 nor
401, every call to get, post, put or delete issues no HTTP request, leaves
all client state unchanged, performs no refresh and no verb attempt, and
returns `none`; hence the last status stays outside {200, 401} across all
further verb calls. -/
theorem c10_stuck_state_noop (st : ClientState) (rtr : Except String Resp) (v : Verb)
    (ep : String) (d : List (String × String)) (tr : Except String Resp)
    (h200 : st.last_request_status_code ≠ 200)
    (h401 : st.last_request_status_code ≠ 401) :
    safeQuery st rtr v ep d tr =
      { state := st, response := none, refreshCalls := 0, verbAttempts := 0,
        issuedRequest := none } := by
  unfold safeQuery
  rw [if_neg h200, if_neg h401]

theorem c10_stuck_state_noop_witness :
    safeQuery { initState "base" with last_request_status_code := 404 }
        (Except.ok ⟨200, "r"⟩) Verb.get "ep" [] (Except.ok ⟨200, "body"⟩) =
      { state := { initState "base" with last_request_status_code := 404 },
        response := none, refreshCalls := 0, verbAttempts := 0,
        issuedRequest := none } :=
  c10_stuck_state_noop _ _ _ _ _ _ (by decide) (by decide)

/-- C5: when the HTTP exchange underlying a verb call raises an exception
(the verb transport raises, or — from the 401 state — the refresh
transport raises), the exception does not propagate: the call returns
`none` and the entire prior client state, in particular the cached
last-status and last-content fields, is unchanged. -/
theorem c5_transport_exception_caught (st : ClientState) (rtr : Except String Resp)
    (v : Verb) (ep : String) (d : List (String × String)) (tr : Except String Resp)
    (e : String)
    (h : tr = Except.error e ∨
         (st.last_request_status_code = 401 ∧ rtr = Except.error e)) :
    (safeQuery st rtr v ep d tr).state = st ∧
    (safeQuery st rtr v ep d tr).response = none := by
  rcases h with h | ⟨h401, hrtr⟩
  · subst h
    unfold safeQuery
    by_cases h1 : st.last_request_status_code = 200
    · rw [if_pos h1]
      rcases hv : verbRequest st v ep d with _ | r <;> simp
    · rw [if_neg h1]
      by_cases h2 : st.last_request_status_code = 401
      · rw [if_pos h2]
        rcases hr : refreshLogin st rtr with e1 | p
        · simp [hr]
        · obtain ⟨st1, r0⟩ := p
          have hst : st1 = st := refreshLogin_ok_state st rtr st1 r0 hr
          subst hst
          rcases hv : verbRequest st1 v ep d with _ | r <;> simp [hr, hv]
      · rw [if_neg h2]
        exact ⟨rfl, rfl⟩
  · subst hrtr
    unfold safeQuery
    have h1 : ¬st.last_request_status_code = 200 := by rw [h401]; decide
    rw [if_neg h1, if_pos h401]
    simp [refreshLogin]

theorem c5_transport_exception_caught_witness :
    (safeQuery (initState "b") (Except.ok ⟨200, "r"⟩) Verb.get "ep" []
        (Except.error "ConnectionError")).state = initState "b" ∧
    (safeQuery (initState "b") (Except.ok ⟨200, "r"⟩) Verb.get "ep" []
        (Except.error "ConnectionError")).response = none :=
  c5_transport_exception_caught _ _ _ _ _ _ "ConnectionError" (Or.inl rfl)

/-- C1 (evaluation at the failing input): from the healthy state a get
call whose response is 401 performs zero refreshLogin calls and only the
single original verb attempt — no retry — because line 142 evaluates the
nonexistent attribute `self.safeQuery`, raising an AttributeError that the
surrounding except swallows; the wrapper returns `none` with the last
status set to 401.  The claimed refresh-and-retry therefore does not
happen. -/
theorem c1_401_performs_no_refresh_and_no_retry :
    safeQuery (initState "https://www.plentymarkets.co.uk/rest/")
        (Except.ok ⟨200, "tokens"⟩) Verb.get "pim/attributes" []
        (Except.ok ⟨401, "unauthorized"⟩) =
      { state := { initState "https://www.plentymarkets.co.uk/rest/" with
                     last_request_status_code := 401 },
        response := none, refreshCalls := 0, verbAttempts := 1,
        issuedRequest := some
          { verb := Verb.get,
            url := "https://www.plentymarkets.co.uk/rest/pim/attributes?",
            headers := some [] } } := by
  decide

/-- C8: a get call with params a=1, b=2 against endpoint pim/attributes
issues its request to exactly `<base>pim/attributes?a=1&b=2`, with the
parameters url-encoded in the given order and a single `?` inserted, and
carries the stored headers. -/
theorem c8_get_builds_query_url (st : ClientState) :
    verbRequest st Verb.get "pim/attributes" [("a", "1"), ("b", "2")] =
      some { verb := Verb.get, url := st.url ++ "pim/attributes?a=1&b=2",
             headers := some st.headers } := by
  have hq : urlencode [("a", "1"), ("b", "2")] = "a=1&b=2" := by decide
  have hd : ("pim/attributes" : String).dropRight 1 ≠ "?" := by decide
  have happ : ("pim/attributes" : String) ++ ("?" ++ "a=1&b=2") = "pim/attributes?a=1&b=2" := by
    decide
  simp only [verbRequest, hq, hd, if_pos, ne_eq, not_false_eq_true, if_true]
  rw [String.append_assoc, happ]

end PlentyMarket

namespace PlentyMarket

theorem safeQuery_issuedRequest_eq (st : ClientState) (rtr : Except String Resp)
    (v : Verb) (ep : String) (d : List (String × String)) (tr : Except String Resp)
    (r : HttpRequest)
    (h : (safeQuery st rtr v ep d tr).issuedRequest = some r) :
    verbRequest st v ep d = some r := by
  unfold safeQuery at h
  by_cases h1 : st.last_request_status_code = 200
  · rw [if_pos h1] at h
    rcases hv : verbRequest st v ep d with _ | r1
    · rw [hv] at h; cases tr <;> simp at h
    · rw [hv] at h
      cases tr with
      | error e => simp at h; rw [h]
      | ok resp =>
        simp [apply_ite CallResult.issuedRequest] at h
        rw [h]
  · rw [if_neg h1] at h
    by_cases h2 : st.last_request_status_code = 401
    · rw [if_pos h2] at h
      rcases hr : refreshLogin st rtr with e1 | p
      · simp [hr] at h
      · obtain ⟨st1, r0⟩ := p
        have hst : st1 = st := refreshLogin_ok_state st rtr st1 r0 hr
        subst hst
        simp only [hr] at h
        rcases hv : verbRequest st1 v ep d with _ | r1
        · rw [hv] at h; cases tr <;> simp at h
        · rw [hv] at h
          cases tr with
          | error e => simp at h; rw [h]
          | ok resp =>
            simp [apply_ite CallResult.issuedRequest] at h
            rw [h]
    · rw [if_neg h2] at h; simp at h

/-- C2: a login call whose response body is JSON containing both an
accessToken and a refreshToken field stores the refresh token in the
client state and installs the header entry
Authorization: Bearer <accessToken> into the header mapping. -/
theorem c2_login_success_sets_auth (st : ClientState) (resp : Resp)
    (body : List (String × String)) (tok rt : String)
    (hA : dictGet body "accessToken" = some tok)
    (hR : dictGet body "refreshToken" = some rt) :
    (login st resp body).1.refresh_token = rt ∧
    dictGet (login st resp body).1.headers "Authorization" =
      some ("Bearer " ++ tok) := by
  simp only [login, hA, hR]
  constructor
  · simp [setHeader, dictUpdate]
  · simp only [setHeader, dictUpdate, List.foldl]
    exact dictGet_dictSet_self _ _ _

theorem c2_login_success_sets_auth_witness :
    (login (initState "b") ⟨200, "ok"⟩
        [("accessToken", "tok"), ("refreshToken", "ref")]).1.refresh_token = "ref" ∧
    dictGet (login (initState "b") ⟨200, "ok"⟩
        [("accessToken", "tok"), ("refreshToken", "ref")]).1.headers "Authorization" =
      some ("Bearer " ++ "tok") :=
  c2_login_success_sets_auth _ _ _ "tok" "ref" (by decide) (by decide)

/-- C3: whenever a verb call actually issues a request and the response
has status 200, the last-content field is overwritten with the new body
and the last-status field is set to 200, for every prior client state. -/
theorem c3_200_overwrites_cache (st : ClientState) (rtr : Except String Resp)
    (v : Verb) (ep : String) (d : List (String × String)) (resp : Resp)
    (hreq : ((safeQuery st rtr v ep d (Except.ok resp)).issuedRequest).isSome = true)
    (h200 : resp.status_code = 200) :
    (safeQuery st rtr v ep d (Except.ok resp)).state.last_request_content =
      some resp.content ∧
    (safeQuery st rtr v ep d (Except.ok resp)).state.last_request_status_code = 200 := by
  unfold safeQuery at hreq ⊢
  by_cases h1 : st.last_request_status_code = 200
  · rw [if_pos h1] at hreq ⊢
    rcases hv : verbRequest st v ep d with _ | r
    · rw [hv] at hreq; simp at hreq
    · rw [hv] at hreq
      simp [h200]
  · rw [if_neg h1] at hreq ⊢
    by_cases h2 : st.last_request_status_code = 401
    · rw [if_pos h2] at hreq ⊢
      rcases hr : refreshLogin st rtr with e1 | p
      · rw [hr] at hreq; simp at hreq
      · obtain ⟨st1, r0⟩ := p
        simp only [hr] at hreq
        rcases hv : verbRequest st1 v ep d with _ | r
        · rw [hv] at hreq; simp at hreq
        · rw [hv] at hreq
          simp [hr, hv, h200]
    · rw [if_neg h2] at hreq; simp at hreq

theorem c3_200_overwrites_cache_witness :
    (safeQuery (initState "b") (Except.error "e") Verb.get "ep" []
        (Except.ok ⟨200, "body"⟩)).state.last_request_content = some "body" ∧
    (safeQuery (initState "b") (Except.error "e") Verb.get "ep" []
        (Except.ok ⟨200, "body"⟩)).state.last_request_status_code = 200 :=
  c3_200_overwrites_cache _ _ _ _ _ _ (by decide) rfl

/-- C4: every request issued through the wrapper by get (or by post, which
in fact never issues one) carries the stored header mapping, while every
request issued by put or by delete is sent without headers. -/
theorem c4_headers_attached_by_verb (st : ClientState) (rtr tr : Except String Resp)
    (v : Verb) (ep : String) (d : List (String × String)) (r : HttpRequest)
    (h : (safeQuery st rtr v ep d tr).issuedRequest = some r) :
    ((v = Verb.get ∨ v = Verb.post) → r.headers = some st.headers) ∧
    ((v = Verb.put ∨ v = Verb.delete) → r.headers = none) := by
  have hv := safeQuery_issuedRequest_eq st rtr v ep d tr r h
  constructor
  · rintro (rfl | rfl)
    · simp only [verbRequest, Option.some.injEq] at hv
      subst hv
      rfl
    · simp [verbRequest] at hv
  · rintro (rfl | rfl) <;>
      simp only [verbRequest, Option.some.injEq] at hv <;> subst hv <;> rfl

theorem c4_headers_attached_by_verb_witness :
    ((Verb.get = Verb.get ∨ Verb.get = Verb.post) →
      (HttpRequest.mk Verb.get "bep?" (some [])).headers =
        some (initState "b").headers) ∧
    ((Verb.get = Verb.put ∨ Verb.get = Verb.delete) →
      (HttpRequest.mk Verb.get "bep?" (some [])).headers = none) :=
  c4_headers_attached_by_verb (initState "b") (Except.error "x") (Except.ok ⟨200, "c"⟩)
    Verb.get "ep" [] ⟨Verb.get, "bep?", some []⟩ (by decide)

/-- C6: a login call whose response body is JSON lacking the accessToken
field or the refreshToken field leaves the header mapping and the stored
refresh token unchanged and returns the response for the caller to
inspect. -/
theorem c6_login_missing_field_no_mutation (st : ClientState) (resp : Resp)
    (body : List (String × String))
    (h : dictGet body "accessToken" = none ∨ dictGet body "refreshToken" = none) :
    (login st resp body).1.headers = st.headers ∧
    (login st resp body).1.refresh_token = st.refresh_token ∧
    (login st resp body).2 = resp := by
  rcases h with h | h
  · simp [login, h]
  · rcases hA : dictGet body "accessToken" with _ | tok <;> simp [login, h, hA]

theorem c6_login_missing_field_no_mutation_witness :
    (login (initState "b") ⟨401, "bad"⟩ [("error", "invalid")]).1.headers =
      (initState "b").headers ∧
    (login (initState "b") ⟨401, "bad"⟩ [("error", "invalid")]).1.refresh_token =
      (initState "b").refresh_token ∧
    (login (initState "b") ⟨401, "bad"⟩ [("error", "invalid")]).2 = ⟨401, "bad"⟩ :=
  c6_login_missing_field_no_mutation _ _ _ (Or.inl (by decide))

/-- C7: whenever a verb call actually issues a request and the response
has status 404, the cached last content is not overwritten, the last
status records 404, and the call surfaces a failure: it returns either
nothing (the healthy-state path swallows the raised error) or the 404
response itself (the unauthorized-state path). -/
theorem c7_404_preserves_cache (st : ClientState) (rtr : Except String Resp)
    (v : Verb) (ep : String) (d : List (String × String)) (resp : Resp)
    (hreq : ((safeQuery st rtr v ep d (Except.ok resp)).issuedRequest).isSome = true)
    (h404 : resp.status_code = 404) :
    (safeQuery st rtr v ep d (Except.ok resp)).state.last_request_content =
      st.last_request_content ∧
    (safeQuery st rtr v ep d (Except.ok resp)).state.last_request_status_code = 404 ∧
    ((safeQuery st rtr v ep d (Except.ok resp)).response = none ∨
     (safeQuery st rtr v ep d (Except.ok resp)).response = some resp) := by
  unfold safeQuery at hreq ⊢
  by_cases h1 : st.last_request_status_code = 200
  · rw [if_pos h1] at hreq ⊢
    rcases hv : verbRequest st v ep d with _ | r
    · rw [hv] at hreq; simp at hreq
    · rw [hv] at hreq
      simp [h404]
  · rw [if_neg h1] at hreq ⊢
    by_cases h2 : st.last_request_status_code = 401
    · rw [if_pos h2] at hreq ⊢
      rcases hr : refreshLogin st rtr with e1 | p
      · rw [hr] at hreq; simp at hreq
      · obtain ⟨st1, r0⟩ := p
        have hst : st1 = st := refreshLogin_ok_state st rtr st1 r0 hr
        subst hst
        simp only [hr] at hreq
        rcases hv : verbRequest st1 v ep d with _ | r
        · rw [hv] at hreq; simp at hreq
        · rw [hv] at hreq
          simp [hr, hv, h404]
    · rw [if_neg h2] at hreq; simp at hreq

theorem c7_404_preserves_cache_witness :
    (safeQuery (initState "b") (Except.error "e") Verb.get "missing" []
        (Except.ok ⟨404, "nf"⟩)).state.last_request_content =
      (initState "b").last_request_content ∧
    (safeQuery (initState "b") (Except.error "e") Verb.get "missing" []
        (Except.ok ⟨404, "nf"⟩)).state.last_request_status_code = 404 ∧
    ((safeQuery (initState "b") (Except.error "e") Verb.get "missing" []
        (Except.ok ⟨404, "nf"⟩)).response = none ∨
     (safeQuery (initState "b") (Except.error "e") Verb.get "missing" []
        (Except.ok ⟨404, "nf"⟩)).response = some ⟨404, "nf"⟩) :=
  c7_404_preserves_cache _ _ _ _ _ _ (by decide) rfl

/-- C9: a successful login installs Authorization: Bearer <accessToken>
into the header mapping, and from any state carrying that entry both the
wrapped verbs and refreshLogin leave the entry unchanged. -/
theorem c9_auth_header_persistence (st : ClientState) (rtr tr : Except String Resp)
    (v : Verb) (ep : String) (d : List (String × String)) (resp r : Resp)
    (body : List (String × String)) (tok rt : String) (s s1 : ClientState)
    (hA : dictGet body "accessToken" = some tok)
    (hR : dictGet body "refreshToken" = some rt)
    (hs : dictGet s.headers "Authorization" = some ("Bearer " ++ tok))
    (hrl : refreshLogin s rtr = Except.ok (s1, r)) :
    dictGet (login st resp body).1.headers "Authorization" = some ("Bearer " ++ tok) ∧
    dictGet (safeQuery s rtr v ep d tr).state.headers "Authorization" =
      some ("Bearer " ++ tok) ∧
    dictGet s1.headers "Authorization" = some ("Bearer " ++ tok) := by
  refine ⟨?_, ?_, ?_⟩
  · simp only [login, hA, hR, setHeader, dictUpdate, List.foldl]
    exact dictGet_dictSet_self _ _ _
  · rw [safeQuery_preserves_headers]
    exact hs
  · rw [refreshLogin_ok_state s rtr s1 r hrl]
    exact hs

theorem c9_auth_header_persistence_witness :
    dictGet (login (initState "b") ⟨200, "ok"⟩
        [("accessToken", "tok"), ("refreshToken", "ref")]).1.headers "Authorization" =
      some ("Bearer " ++ "tok") ∧
    dictGet (safeQuery { initState "b" with
        headers := [("Authorization", "Bearer tok")] } (Except.ok ⟨200, "hello"⟩)
        Verb.get "ep" [] (Except.ok ⟨200, "body"⟩)).state.headers "Authorization" =
      some ("Bearer " ++ "tok") ∧
    dictGet ({ initState "b" with
        headers := [("Authorization", "Bearer tok")] } : ClientState).headers
        "Authorization" = some ("Bearer " ++ "tok") :=
  c9_auth_header_persistence (initState "b") (Except.ok ⟨200, "hello"⟩)
    (Except.ok ⟨200, "body"⟩) Verb.get "ep" [] ⟨200, "ok"⟩ ⟨200, "hello"⟩
    [("accessToken", "tok"), ("refreshToken", "ref")] "tok" "ref"
    { initState "b" with headers := [("Authorization", "Bearer tok")] }
    { initState "b" with headers := [("Authorization", "Bearer tok")] }
    (by decide) (by decide) (by decide) rfl

end PlentyMarket
